import Mathlib

/-!
Shallow embedding of the sales-bonus repository (`src/src/main.js`).

JavaScript numbers are modelled as rationals (`ℚ`); `Math.round(x * 100) / 100`
becomes `round2`.  JavaScript objects used as string-keyed dictionaries
(`sellerIndex`, `productIndex`, `products_sold`) are modelled as association
lists that preserve insertion order; `Object.fromEntries` lets later duplicate
keys overwrite earlier ones, so lookups take the *last* matching entry
(`findLast`) and in-place mutation of the found object is modelled by
`replaceLast`.  A caller-supplied strategy that may throw is modelled as an
`Option`-returning function (`none` = the call threw); `analyzeSalesData`
returns `Except String` where `Except.error` models a thrown `Error`.
`Array.prototype.sort` with a comparator is stable (ES2019), which
`List.insertionSort` reproduces exactly.
-/

namespace SalesBonus

structure Customer where
  id : String
deriving DecidableEq, Repr

structure Seller where
  id : String
  first_name : String
  last_name : String
deriving DecidableEq, Repr

structure Product where
  sku : String
  purchase_price : ℚ
deriving DecidableEq, Repr

structure Item where
  sku : String
  quantity : ℚ
  sale_price : ℚ
  discount : ℚ := 0
deriving DecidableEq, Repr

structure PurchaseRecord where
  receipt_id : String := ""
  seller_id : String
  total_amount : ℚ
  items : List Item
deriving DecidableEq, Repr, Inhabited

structure SalesData where
  customers : List Customer := []
  products : List Product
  sellers : List Seller
  purchase_records : List PurchaseRecord
deriving DecidableEq, Repr

/-- Per-seller accumulator created by `analyzeSalesData` (`sellerStats` entry);
`bonus` and `top_products` are the fields added later in the ranking phase. -/
structure SellerStat where
  id : String
  name : String
  revenue : ℚ
  profit : ℚ
  sales_count : ℕ
  products_sold : List (String × ℚ)
  bonus : ℚ := 0
  top_products : List String := []
deriving DecidableEq, Repr, Inhabited

structure ReportEntry where
  seller_id : String
  name : String
  revenue : ℚ
  profit : ℚ
  sales_count : ℕ
  top_products : List String
  bonus : ℚ
deriving DecidableEq, Repr

/-- The `options` argument: the two caller-supplied strategies.  `none` models
the strategy call throwing an exception. -/
structure AnalyzeOptions where
  calculateRevenue : Item → Product → Option ℚ
  calculateBonus : ℕ → ℕ → SellerStat → Option ℚ

/-- `Math.round(x * 100) / 100` — JS `Math.round` is `⌊x + 1/2⌋`. -/
def round2 (x : ℚ) : ℚ := ((⌊x * 100 + 1 / 2⌋ : ℤ) : ℚ) / 100

/-- `calculateSimpleRevenue` from `src/src/main.js`. -/
def calculateSimpleRevenue (purchase : Item) (_product : Product) : ℚ :=
  let discountMultiplier := 1 - purchase.discount / 100
  let revenue := purchase.sale_price * purchase.quantity * discountMultiplier
  round2 revenue

/-- `calculateBonusByProfit` from `src/src/main.js`: the branches are tested in
source order (first place, then second/third, then last place, then the rest). -/
def calculateBonusByProfit (index : ℕ) (total : ℕ) (_seller : SellerStat) : ℚ :=
  if index = 0 then 15 / 100
  else if index = 1 ∨ index = 2 then 10 / 100
  else if index = total - 1 then 0
  else 5 / 100

/-- The default `options` object the repository's tests pass to
`analyzeSalesData` (both strategies total, so they never throw). -/
def defaultOptions : AnalyzeOptions where
  calculateRevenue := fun item product => some (calculateSimpleRevenue item product)
  calculateBonus := fun index total seller => some (calculateBonusByProfit index total seller)

/-- Last element of `l` satisfying `p` — models `obj[key]` lookup after
`Object.fromEntries`, where later duplicate keys overwrite earlier ones. -/
def findLast (p : α → Bool) : List α → Option α
  | [] => none
  | x :: xs =>
    match findLast p xs with
    | some y => some y
    | none => if p x then some x else none

/-- Replace the last element satisfying `p` by `y` — models mutation of the
object returned by the `findLast` lookup. -/
def replaceLast (p : α → Bool) (y : α) : List α → List α
  | [] => []
  | x :: xs =>
    if xs.any p then x :: replaceLast p y xs
    else if p x then y :: xs else x :: xs

/-- `productIndex[sku]` lookup. -/
def productLookup (products : List Product) (sku : String) : Option Product :=
  findLast (fun p => p.sku == sku) products

/-- `seller.products_sold[item.sku] += item.quantity`, creating the key at `0`
(appended at the end, i.e. in insertion order) when absent. -/
def addQty (ps : List (String × ℚ)) (sku : String) (q : ℚ) : List (String × ℚ) :=
  if ps.any (fun e => e.1 == sku) then
    ps.map (fun e => if e.1 == sku then (e.1, e.2 + q) else e)
  else ps ++ [(sku, q)]

/-- The `sellerStats` initialisation. -/
def initStats (sellers : List Seller) : List SellerStat :=
  sellers.map fun s =>
    { id := s.id, name := s.first_name ++ " " ++ s.last_name,
      revenue := 0, profit := 0, sales_count := 0, products_sold := [] }

/-- Body of the inner `record.items.forEach` loop: state is the (mutated)
seller accumulator together with `validPurchasesCount`.  An unknown SKU is
skipped; a throwing `calculateRevenue` is caught (the item contributes
nothing and the counter is not incremented). -/
def processItem (calcRev : Item → Product → Option ℚ) (products : List Product)
    (acc : SellerStat × ℕ) (item : Item) : SellerStat × ℕ :=
  match productLookup products item.sku with
  | none => acc
  | some product =>
    match calcRev item product with
    | none => acc
    | some itemRevenue =>
      let cost := product.purchase_price * item.quantity
      let itemProfit := itemRevenue - cost
      ({ acc.1 with
          profit := acc.1.profit + itemProfit,
          products_sold := addQty acc.1.products_sold item.sku item.quantity },
       acc.2 + 1)

/-- Body of the outer `data.purchase_records.forEach` loop: state is
`(sellerStats, validPurchasesCount, skippedPurchases)`.  A record with an
unknown `seller_id` only bumps `skippedPurchases`; otherwise the matched
seller gets `sales_count + 1` and `revenue + record.total_amount` before the
items are folded. -/
def processRecord (calcRev : Item → Product → Option ℚ) (products : List Product)
    (st : List SellerStat × ℕ × ℕ) (record : PurchaseRecord) :
    List SellerStat × ℕ × ℕ :=
  match findLast (fun s => s.id == record.seller_id) st.1 with
  | none => (st.1, st.2.1, st.2.2 + 1)
  | some s0 =>
    let s1 := { s0 with
                 sales_count := s0.sales_count + 1,
                 revenue := s0.revenue + record.total_amount }
    let res := record.items.foldl (processItem calcRev products) (s1, st.2.1)
    (replaceLast (fun s => s.id == record.seller_id) res.1 st.1, res.2, st.2.2)

/-- The whole aggregation double loop of `analyzeSalesData`. -/
def aggregate (calcRev : Item → Product → Option ℚ) (products : List Product)
    (sellers : List Seller) (records : List PurchaseRecord) :
    List SellerStat × ℕ × ℕ :=
  records.foldl (processRecord calcRev products) (initStats sellers, 0, 0)

/-- `Object.entries(products_sold) |> sort by quantity desc |> slice(0,10)
|> map(item => item.sku)` — the comparator only looks at the quantity, so
equal quantities keep insertion order (stable sort). -/
def topProductsOf (ps : List (String × ℚ)) : List String :=
  ((List.insertionSort (fun a b : String × ℚ => b.2 ≤ a.2) ps).take 10).map Prod.fst

/-- The bonus/top-products pass over the ranked array: a throwing
`calculateBonus` is caught per seller and replaced by `bonus = 0`,
`top_products = []`. -/
def assignBonuses (calcBonus : ℕ → ℕ → SellerStat → Option ℚ) (total : ℕ) :
    ℕ → List SellerStat → List SellerStat
  | _, [] => []
  | i, s :: rest =>
    (match calcBonus i total s with
     | some b => { s with bonus := b, top_products := topProductsOf s.products_sold }
     | none => { s with bonus := 0, top_products := [] }) ::
      assignBonuses calcBonus total (i + 1) rest

/-- The final `sellersArray.map(...)` projection. -/
def toReport (s : SellerStat) : ReportEntry :=
  { seller_id := s.id, name := s.name, revenue := round2 s.revenue,
    profit := round2 s.profit, sales_count := s.sales_count,
    top_products := s.top_products, bonus := s.bonus }

def msgInvalidInput : String :=
  "Invalid input: expected an object with non-empty arrays purchase_records, products, sellers"

def msgNoValidPurchases : String := "No valid purchase data to analyze"

def msgNoSellersWithSales : String := "No sales data to analyze"

/-- `analyzeSalesData` from `src/src/main.js`.  The input-shape checks on the
`options` object are vacuous here because `AnalyzeOptions` is typed; the three
data-collection emptiness checks, the two post-aggregation checks, the
profit-descending sort, the bonus/top-products pass and the final projection
are all modelled in source order. -/
def analyzeSalesData (data : SalesData) (options : AnalyzeOptions) :
    Except String (List ReportEntry) :=
  if data.purchase_records.isEmpty || data.products.isEmpty || data.sellers.isEmpty then
    Except.error msgInvalidInput
  else if (aggregate options.calculateRevenue data.products data.sellers
      data.purchase_records).2.1 = 0 then
    Except.error msgNoValidPurchases
  else if ((aggregate options.calculateRevenue data.products data.sellers
      data.purchase_records).1.filter (fun s => 0 < s.sales_count)).isEmpty then
    Except.error msgNoSellersWithSales
  else
    Except.ok ((assignBonuses options.calculateBonus
      (List.insertionSort (fun a b : SellerStat => b.profit ≤ a.profit)
        ((aggregate options.calculateRevenue data.products data.sellers
          data.purchase_records).1.filter (fun s => 0 < s.sales_count))).length 0
      (List.insertionSort (fun a b : SellerStat => b.profit ≤ a.profit)
        ((aggregate options.calculateRevenue data.products data.sellers
          data.purchase_records).1.filter (fun s => 0 < s.sales_count)))).map toReport)

/-! ### Concrete example inputs used by counterexamples and witnesses -/

/-- A seller used by the concrete scenarios. -/
def exSeller : Seller := { id := "S1", first_name := "Ann", last_name := "Lee" }

/-- An all-zero seller accumulator (the bonus strategy ignores its argument). -/
def statZero : SellerStat :=
  { id := "", name := "", revenue := 0, profit := 0, sales_count := 0, products_sold := [] }

/-- The spec's single-seller scenario: one product (`purchase_price = 10`), one
receipt with one line item (`sale_price = 20, quantity = 2, discount = 0`),
receipt `total_amount = 40`. -/
def exC3Data : SalesData where
  products := [{ sku := "SKU_1", purchase_price := 10 }]
  sellers := [exSeller]
  purchase_records :=
    [{ receipt_id := "R1", seller_id := "S1", total_amount := 40,
       items := [{ sku := "SKU_1", quantity := 2, sale_price := 20, discount := 0 }] }]

/-- Same scenario but with a receipt `total_amount` (100) that differs from the
line item's revenue (40), separating the two candidate revenue-accumulation
rules. -/
def exC1Data : SalesData where
  products := [{ sku := "SKU_1", purchase_price := 10 }]
  sellers := [exSeller]
  purchase_records :=
    [{ receipt_id := "R1", seller_id := "S1", total_amount := 100,
       items := [{ sku := "SKU_1", quantity := 2, sale_price := 20, discount := 0 }] }]

/-- Two products with equal sold quantities whose SKUs compare differently as
numeric suffixes (`SKU_12 < SKU_100`) and as insertion order (`SKU_100` first). -/
def exC4Data : SalesData where
  products := [{ sku := "SKU_100", purchase_price := 1 }, { sku := "SKU_12", purchase_price := 1 }]
  sellers := [exSeller]
  purchase_records :=
    [{ receipt_id := "R1", seller_id := "S1", total_amount := 4,
       items := [{ sku := "SKU_100", quantity := 1, sale_price := 2, discount := 0 },
                 { sku := "SKU_12", quantity := 1, sale_price := 2, discount := 0 }] }]

/-- Two line items; used with a revenue strategy that throws on `SKU_1`. -/
def exC9Data : SalesData where
  products := [{ sku := "SKU_1", purchase_price := 1 }, { sku := "SKU_2", purchase_price := 1 }]
  sellers := [exSeller]
  purchase_records :=
    [{ receipt_id := "R1", seller_id := "S1", total_amount := 10,
       items := [{ sku := "SKU_1", quantity := 1, sale_price := 5, discount := 0 },
                 { sku := "SKU_2", quantity := 1, sale_price := 5, discount := 0 }] }]

/-- Options whose revenue strategy throws on `SKU_1` items and otherwise
behaves like the default. -/
def exC9Options : AnalyzeOptions where
  calculateRevenue := fun item product =>
    if item.sku == "SKU_1" then none else some (calculateSimpleRevenue item product)
  calculateBonus := fun index total seller => some (calculateBonusByProfit index total seller)

/-! ### Helper lemmas about the aggregation fold -/

/-- Processing one line item never changes the seller's `revenue`,
`sales_count`, `id` or `name` — only `profit` and `products_sold`. -/
theorem processItem_fields (cr : Item → Product → Option ℚ) (ps : List Product)
    (acc : SellerStat × ℕ) (item : Item) :
    (processItem cr ps acc item).1.revenue = acc.1.revenue ∧
    (processItem cr ps acc item).1.sales_count = acc.1.sales_count ∧
    (processItem cr ps acc item).1.id = acc.1.id ∧
    (processItem cr ps acc item).1.name = acc.1.name := by
  rcases hp : productLookup ps item.sku with _ | product
  · simp [processItem, hp]
  · rcases hr : cr item product with _ | r
    · simp [processItem, hp, hr]
    · simp [processItem, hp, hr]

/-- Folding a whole item list never changes `revenue`, `sales_count`, `id` or
`name`. -/
theorem foldl_processItem_fields (cr : Item → Product → Option ℚ) (ps : List Product)
    (items : List Item) :
    ∀ (s : SellerStat) (v : ℕ),
      (items.foldl (processItem cr ps) (s, v)).1.revenue = s.revenue ∧
      (items.foldl (processItem cr ps) (s, v)).1.sales_count = s.sales_count ∧
      (items.foldl (processItem cr ps) (s, v)).1.id = s.id ∧
      (items.foldl (processItem cr ps) (s, v)).1.name = s.name := by
  induction items with
  | nil => intro s v; exact ⟨rfl, rfl, rfl, rfl⟩
  | cons item items ih =>
    intro s v
    have hpf := processItem_fields cr ps (s, v) item
    have ihh := ih (processItem cr ps (s, v) item).1 (processItem cr ps (s, v) item).2
    simp only [List.foldl_cons]
    exact ⟨ihh.1.trans hpf.1, ihh.2.1.trans hpf.2.1, ihh.2.2.1.trans hpf.2.2.1,
      ihh.2.2.2.trans hpf.2.2.2⟩

/-! ### Claim C1 -/

/-- C1 counterexample: with receipt `total_amount = 100` but a single line item
whose `calculateRevenue` is `40`, the output revenue is `100`: the code adds
`record.total_amount` to the seller's revenue, not the per-item
`calculateRevenue` result the claim describes. -/
theorem c1_counterexample :
    (analyzeSalesData exC1Data defaultOptions).map (fun rep => rep.map (fun e => e.revenue)) =
      Except.ok [100] ∧
    defaultOptions.calculateRevenue
        { sku := "SKU_1", quantity := 2, sale_price := 20, discount := 0 }
        { sku := "SKU_1", purchase_price := 10 } = some 40 ∧
    (100 : ℚ) ≠ 40 := by
  refine ⟨?_, ?_, ?_⟩
  · with_unfolding_all rfl
  · with_unfolding_all rfl
  · with_unfolding_all decide

/-- C1 amended: for a line item with a known SKU whose revenue strategy
returns `r`, the accumulator gains `itemProfit = r - purchase_price * quantity`
on `profit` and `item.quantity` on `products_sold[sku]` (created at 0 if
absent), while `revenue` is left untouched by line items; `itemRevenue` is NOT
added to the seller's revenue — instead each record with a known `seller_id`
adds `record.total_amount` to revenue and 1 to `sales_count`. -/
theorem c1_amended (cr : Item → Product → Option ℚ) (ps : List Product) (item : Item)
    (product : Product) (r : ℚ) (s : SellerStat) (v : ℕ)
    (record : PurchaseRecord) (stats : List SellerStat) (valid skipped : ℕ) (s0 : SellerStat)
    (h1 : productLookup ps item.sku = some product)
    (h2 : cr item product = some r)
    (hf : findLast (fun t => t.id == record.seller_id) stats = some s0) :
    processItem cr ps (s, v) item =
      ({ s with profit := s.profit + (r - product.purchase_price * item.quantity),
                products_sold := addQty s.products_sold item.sku item.quantity }, v + 1) ∧
    processRecord cr ps (stats, valid, skipped) record =
      (replaceLast (fun t => t.id == record.seller_id)
        (record.items.foldl (processItem cr ps)
          ({ s0 with sales_count := s0.sales_count + 1,
                     revenue := s0.revenue + record.total_amount }, valid)).1 stats,
       (record.items.foldl (processItem cr ps)
         ({ s0 with sales_count := s0.sales_count + 1,
                    revenue := s0.revenue + record.total_amount }, valid)).2, skipped) ∧
    (record.items.foldl (processItem cr ps)
      ({ s0 with sales_count := s0.sales_count + 1,
                 revenue := s0.revenue + record.total_amount }, valid)).1.revenue =
      s0.revenue + record.total_amount ∧
    (record.items.foldl (processItem cr ps)
      ({ s0 with sales_count := s0.sales_count + 1,
                 revenue := s0.revenue + record.total_amount }, valid)).1.sales_count =
      s0.sales_count + 1 := by
  refine ⟨?_, ?_, ?_, ?_⟩
  · simp [processItem, h1, h2]
  · simp [processRecord, hf]
  · exact (foldl_processItem_fields cr ps record.items _ valid).1
  · exact (foldl_processItem_fields cr ps record.items _ valid).2.1

/-- C1 witness: the amended theorem at the concrete single-item scenario. -/
theorem c1_witness :
    processItem defaultOptions.calculateRevenue exC1Data.products
      (statZero, 0) { sku := "SKU_1", quantity := 2, sale_price := 20, discount := 0 } =
      ({ statZero with
          profit := statZero.profit + (40 - (10 : ℚ) * 2),
          products_sold := addQty statZero.products_sold "SKU_1" 2 }, 0 + 1) ∧
    processRecord defaultOptions.calculateRevenue exC1Data.products
      (initStats exC1Data.sellers, 0, 0) (exC1Data.purchase_records.headI) =
      (replaceLast (fun t => t.id == (exC1Data.purchase_records.headI).seller_id)
        ((exC1Data.purchase_records.headI).items.foldl
          (processItem defaultOptions.calculateRevenue exC1Data.products)
          ({ (initStats exC1Data.sellers).headI with
              sales_count := (initStats exC1Data.sellers).headI.sales_count + 1,
              revenue := (initStats exC1Data.sellers).headI.revenue +
                (exC1Data.purchase_records.headI).total_amount }, 0)).1
        (initStats exC1Data.sellers),
       ((exC1Data.purchase_records.headI).items.foldl
         (processItem defaultOptions.calculateRevenue exC1Data.products)
         ({ (initStats exC1Data.sellers).headI with
             sales_count := (initStats exC1Data.sellers).headI.sales_count + 1,
             revenue := (initStats exC1Data.sellers).headI.revenue +
               (exC1Data.purchase_records.headI).total_amount }, 0)).2, 0) ∧
    ((exC1Data.purchase_records.headI).items.foldl
      (processItem defaultOptions.calculateRevenue exC1Data.products)
      ({ (initStats exC1Data.sellers).headI with
          sales_count := (initStats exC1Data.sellers).headI.sales_count + 1,
          revenue := (initStats exC1Data.sellers).headI.revenue +
            (exC1Data.purchase_records.headI).total_amount }, 0)).1.revenue =
      (initStats exC1Data.sellers).headI.revenue +
        (exC1Data.purchase_records.headI).total_amount ∧
    ((exC1Data.purchase_records.headI).items.foldl
      (processItem defaultOptions.calculateRevenue exC1Data.products)
      ({ (initStats exC1Data.sellers).headI with
          sales_count := (initStats exC1Data.sellers).headI.sales_count + 1,
          revenue := (initStats exC1Data.sellers).headI.revenue +
            (exC1Data.purchase_records.headI).total_amount }, 0)).1.sales_count =
      (initStats exC1Data.sellers).headI.sales_count + 1 :=
  c1_amended defaultOptions.calculateRevenue exC1Data.products
    { sku := "SKU_1", quantity := 2, sale_price := 20, discount := 0 }
    { sku := "SKU_1", purchase_price := 10 } 40 statZero 0
    (exC1Data.purchase_records.headI) (initStats exC1Data.sellers) 0 0
    ((initStats exC1Data.sellers).headI)
    (by with_unfolding_all rfl) (by with_unfolding_all rfl) (by with_unfolding_all rfl)

/-! ### Claim C2 -/

/-- C2 counterexample: the claim says the last-place rule beats the
second/third-place rule when `total ≤ 3`, so `index = 2` of `total = 3` would
get `0`; in `src/src/main.js` the `index === 1 || index === 2` branch is tested
first, so it returns `0.10`. -/
theorem c2_counterexample :
    calculateBonusByProfit 2 3 statZero = 10 / 100 ∧ (10 / 100 : ℚ) ≠ 0 := by
  constructor
  · with_unfolding_all rfl
  · with_unfolding_all decide

/-- C2 amended: for `0 ≤ i < n`, `calculateBonusByProfit` returns `0.15` at
`i = 0`, `0.10` at `i ∈ {1, 2}`, `0` at the last index only when `i ≥ 3` (the
first/second/third-place branches take precedence over the last-place branch,
so for `n = 3` index 2 gets `0.10`), and `0.05` otherwise; for `n = 5` the
bonuses at indices 0..4 are `0.15, 0.10, 0.10, 0.05, 0`. -/
theorem c2_amended (i n : ℕ) (s : SellerStat) (h : i < n) :
    (i = 0 → calculateBonusByProfit i n s = 15 / 100) ∧
    ((i = 1 ∨ i = 2) → calculateBonusByProfit i n s = 10 / 100) ∧
    (i = n - 1 → 3 ≤ i → calculateBonusByProfit i n s = 0) ∧
    (i ≠ 0 → i ≠ 1 → i ≠ 2 → i ≠ n - 1 → calculateBonusByProfit i n s = 5 / 100) ∧
    (n = 3 → i = 2 → calculateBonusByProfit i n s = 10 / 100) ∧
    (List.range 5).map (fun j => calculateBonusByProfit j 5 s) =
      [15 / 100, 10 / 100, 10 / 100, 5 / 100, 0] := by
  refine ⟨?_, ?_, ?_, ?_, ?_, ?_⟩
  · intro hi; simp [calculateBonusByProfit, hi]
  · intro hi; rcases hi with hi | hi <;> simp [calculateBonusByProfit, hi]
  · intro hi h3
    have h0 : i ≠ 0 := by omega
    have h1 : ¬(i = 1 ∨ i = 2) := by omega
    unfold calculateBonusByProfit
    rw [if_neg h0, if_neg h1, if_pos hi]
  · intro h0 h1 h2 hl
    simp [calculateBonusByProfit, h0, h1, h2, hl]
  · intro hn hi; simp [calculateBonusByProfit, hi]
  · simp [List.range_succ, calculateBonusByProfit]

/-- C2 witness: the amended theorem instantiated at `i = 3`, `n = 5`. -/
theorem c2_witness :
    (3 = 0 → calculateBonusByProfit 3 5 statZero = 15 / 100) ∧
    ((3 = 1 ∨ 3 = 2) → calculateBonusByProfit 3 5 statZero = 10 / 100) ∧
    (3 = 5 - 1 → 3 ≤ 3 → calculateBonusByProfit 3 5 statZero = 0) ∧
    (3 ≠ 0 → 3 ≠ 1 → 3 ≠ 2 → 3 ≠ 5 - 1 → calculateBonusByProfit 3 5 statZero = 5 / 100) ∧
    (5 = 3 → 3 = 2 → calculateBonusByProfit 3 5 statZero = 10 / 100) ∧
    (List.range 5).map (fun j => calculateBonusByProfit j 5 statZero) =
      [15 / 100, 10 / 100, 10 / 100, 5 / 100, 0] :=
  c2_amended 3 5 statZero (by decide)

/-! ### Claim C3 -/

/-- C3 counterexample: on the spec's single-seller scenario the sole seller's
bonus is `0.15`, not the claimed `0.0` — in `src/src/main.js` the `index === 0`
branch fires before the last-place branch ever gets tested. -/
theorem c3_counterexample :
    (analyzeSalesData exC3Data defaultOptions).map (fun r => r.map (fun e => e.bonus)) =
      Except.ok [15 / 100] ∧ (15 / 100 : ℚ) ≠ 0 := by
  constructor
  · with_unfolding_all rfl
  · with_unfolding_all decide

/-- C3 amended: the single-seller scenario (`purchase_price = 10`,
`sale_price = 20, quantity = 2, discount = 0`, receipt `total_amount = 40`)
yields one entry with `revenue = 40.0`, `profit = 20.0`, `sales_count = 1` and
`bonus = 0.15`: the sole seller is ranked first, and the first-place rule
shadows the last-place rule. -/
theorem c3_amended :
    analyzeSalesData exC3Data defaultOptions = Except.ok
      [{ seller_id := "S1", name := "Ann Lee", revenue := 40, profit := 20,
         sales_count := 1, top_products := ["SKU_1"], bonus := 15 / 100 }] := by
  with_unfolding_all rfl

/-! ### Claim C5 -/

/-- C5 confirmed: a record whose `seller_id` matches no seller leaves the
seller statistics and the valid-item counter untouched (only the skipped
counter grows) and, the fold being a total function, no exception is raised;
a line item whose SKU matches no product is the identity on the accumulator,
so folding a receipt containing it equals folding the receipt with that item
removed — the remaining items are still processed. -/
theorem c5_skip_semantics (cr : Item → Product → Option ℚ) (ps : List Product)
    (st : List SellerStat × ℕ × ℕ) (record : PurchaseRecord)
    (acc : SellerStat × ℕ) (item : Item) (pre post : List Item)
    (hs : findLast (fun s => s.id == record.seller_id) st.1 = none)
    (hi : productLookup ps item.sku = none) :
    processRecord cr ps st record = (st.1, st.2.1, st.2.2 + 1) ∧
    processItem cr ps acc item = acc ∧
    (pre ++ item :: post).foldl (processItem cr ps) acc =
      (pre ++ post).foldl (processItem cr ps) acc := by
  refine ⟨?_, ?_, ?_⟩
  · simp [processRecord, hs]
  · simp [processItem, hi]
  · rw [List.foldl_append, List.foldl_append, List.foldl_cons]
    congr 1
    simp [processItem, hi]

/-- C5 witness: a ghost seller id and a ghost SKU on concrete data. -/
theorem c5_witness :
    processRecord defaultOptions.calculateRevenue exC3Data.products
      (initStats exC3Data.sellers, 0, 0)
      { receipt_id := "RX", seller_id := "GHOST", total_amount := 5, items := [] } =
      (initStats exC3Data.sellers, 0, 0 + 1) ∧
    processItem defaultOptions.calculateRevenue exC3Data.products (statZero, 0)
      { sku := "SKU_NOPE", quantity := 1, sale_price := 1, discount := 0 } = (statZero, 0) ∧
    (([] : List Item) ++
        ({ sku := "SKU_NOPE", quantity := 1, sale_price := 1, discount := 0 } : Item) ::
        [({ sku := "SKU_1", quantity := 2, sale_price := 20, discount := 0 } : Item)]).foldl
      (processItem defaultOptions.calculateRevenue exC3Data.products) (statZero, 0) =
      (([] : List Item) ++
        [({ sku := "SKU_1", quantity := 2, sale_price := 20, discount := 0 } : Item)]).foldl
      (processItem defaultOptions.calculateRevenue exC3Data.products) (statZero, 0) :=
  c5_skip_semantics defaultOptions.calculateRevenue exC3Data.products
    (initStats exC3Data.sellers, 0, 0)
    { receipt_id := "RX", seller_id := "GHOST", total_amount := 5, items := [] }
    (statZero, 0) { sku := "SKU_NOPE", quantity := 1, sale_price := 1, discount := 0 }
    [] [{ sku := "SKU_1", quantity := 2, sale_price := 20, discount := 0 }]
    (by with_unfolding_all rfl) (by with_unfolding_all rfl)

/-! ### Claim C9 -/

/-- C9 counterexample: with a revenue strategy that throws on the first line
item, the run does NOT abort: the exception is caught per item inside the
`try`/`catch` of the items loop, the second item is still processed (profit 4
from `SKU_2`), and the analysis returns normally — contradicting the claim
that a revenue-strategy exception propagates as fatal. -/
theorem c9_counterexample :
    analyzeSalesData exC9Data exC9Options = Except.ok
      [{ seller_id := "S1", name := "Ann Lee", revenue := 10, profit := 4,
         sales_count := 1, top_products := ["SKU_2"], bonus := 15 / 100 }] := by
  with_unfolding_all rfl

/-- C9 amended: both strategies are isolated, not fatal.  A bonus-strategy
exception is caught per seller: that seller gets `bonus = 0` and an empty
`top_products` while the remaining sellers are processed normally.  A
revenue-strategy exception is caught per line item: that item contributes
nothing (not even to the valid-item counter) and the rest of the receipt still
processes. -/
theorem c9_amended (cb : ℕ → ℕ → SellerStat → Option ℚ) (total i : ℕ)
    (s : SellerStat) (rest : List SellerStat)
    (cr : Item → Product → Option ℚ) (ps : List Product)
    (acc : SellerStat × ℕ) (item : Item) (product : Product)
    (hb : cb i total s = none)
    (hp : productLookup ps item.sku = some product)
    (hr : cr item product = none) :
    assignBonuses cb total i (s :: rest) =
      { s with bonus := 0, top_products := [] } :: assignBonuses cb total (i + 1) rest ∧
    processItem cr ps acc item = acc := by
  constructor
  · simp [assignBonuses, hb]
  · simp [processItem, hp, hr]

/-- C9 witness: a bonus strategy that always throws, and the throwing revenue
strategy of the counterexample input. -/
theorem c9_witness :
    assignBonuses (fun _ _ _ => none) 1 0 (statZero :: []) =
      { statZero with bonus := 0, top_products := [] } ::
        assignBonuses (fun _ _ _ => none) 1 (0 + 1) [] ∧
    processItem exC9Options.calculateRevenue exC9Data.products (statZero, 0)
      { sku := "SKU_1", quantity := 1, sale_price := 5, discount := 0 } = (statZero, 0) :=
  c9_amended (fun _ _ _ => none) 1 0 statZero []
    exC9Options.calculateRevenue exC9Data.products (statZero, 0)
    { sku := "SKU_1", quantity := 1, sale_price := 5, discount := 0 }
    { sku := "SKU_1", purchase_price := 1 }
    rfl (by with_unfolding_all rfl) (by with_unfolding_all rfl)

/-! ### Claim C7 -/

/-- C7 counterexample: `analyzeSalesData` never looks at `customers` — on an
input whose `customers` collection is empty (but the other three are
non-empty) it completes successfully instead of raising the claimed
`ValidationError`. -/
theorem c7_counterexample :
    exC3Data.customers = [] ∧
    (analyzeSalesData exC3Data defaultOptions).map (fun r => r.map (fun e => e.seller_id)) =
      Except.ok ["S1"] := by
  constructor
  · rfl
  · with_unfolding_all rfl

/-- C7 amended: emptiness of any of the three checked collections `products`,
`sellers`, `purchase_records` (in particular an empty `sellers` array) raises
the fatal validation error before any aggregation is attempted — the result is
the input-validation message for every options object, so no strategy is ever
invoked; the `customers` collection is not checked at all. -/
theorem c7_amended (data : SalesData) (opts : AnalyzeOptions)
    (h : data.products = [] ∨ data.sellers = [] ∨ data.purchase_records = []) :
    analyzeSalesData data opts = Except.error msgInvalidInput := by
  rcases h with h | h | h <;> simp [analyzeSalesData, h]

/-- Input with an empty `sellers` array (the other collections non-empty). -/
def exNoSellersData : SalesData where
  customers := []
  products := [{ sku := "SKU_1", purchase_price := 10 }]
  sellers := []
  purchase_records :=
    [{ receipt_id := "R1", seller_id := "S1", total_amount := 40, items := [] }]

/-- C7 witness: the empty-sellers input. -/
theorem c7_witness :
    analyzeSalesData exNoSellersData defaultOptions = Except.error msgInvalidInput :=
  c7_amended exNoSellersData defaultOptions (Or.inr (Or.inl rfl))

/-! ### Invariant: a positive valid-item count forces a seller with sales -/

/-- `findLast` succeeds exactly when some element satisfies the predicate. -/
theorem findLast_isSome_eq_any (p : α → Bool) (l : List α) :
    (findLast p l).isSome = l.any p := by
  induction l with
  | nil => rfl
  | cons a as ih =>
    rcases hf : findLast p as with _ | y
    · rw [hf] at ih
      simp [findLast, hf, List.any_cons, ← ih]
      cases p a <;> simp
    · rw [hf] at ih
      simp [findLast, hf, List.any_cons, ← ih]

/-- The replacement element is a member of the result whenever some element
satisfies the predicate. -/
theorem mem_replaceLast (p : α → Bool) (y : α) (l : List α) (h : l.any p = true) :
    y ∈ replaceLast p y l := by
  induction l with
  | nil => simp at h
  | cons a as ih =>
    by_cases has : as.any p = true
    · simp only [replaceLast, has, if_true]
      exact List.mem_cons_of_mem a (ih has)
    · have hpa : p a = true := by
        rcases List.any_eq_true.mp h with ⟨x, hx, hpx⟩
        rcases List.mem_cons.mp hx with rfl | hx
        · exact hpx
        · exact absurd (List.any_eq_true.mpr ⟨x, hx, hpx⟩) has
      simp only [replaceLast, has, if_false, Bool.false_eq_true, hpa, if_true]
      exact List.mem_cons_self y as

/-- Processing one record preserves the invariant "a nonzero valid-item count
implies some seller already has a positive `sales_count`": a record can only
contribute valid items after incrementing its (known) seller's
`sales_count`. -/
theorem processRecord_inv (cr : Item → Product → Option ℚ) (ps : List Product)
    (st : List SellerStat × ℕ × ℕ) (record : PurchaseRecord)
    (h : st.2.1 ≠ 0 → ∃ s ∈ st.1, 0 < s.sales_count) :
    (processRecord cr ps st record).2.1 ≠ 0 →
      ∃ s ∈ (processRecord cr ps st record).1, 0 < s.sales_count := by
  rcases hf : findLast (fun s => s.id == record.seller_id) st.1 with _ | s0
  · intro hv
    simp only [processRecord, hf] at hv ⊢
    exact h hv
  · intro _
    simp only [processRecord, hf]
    have hany : st.1.any (fun s => s.id == record.seller_id) = true := by
      have := findLast_isSome_eq_any (fun s => s.id == record.seller_id) st.1
      rw [hf] at this
      exact this.symm.trans rfl |>.symm ▸ rfl
    refine ⟨_, mem_replaceLast _ _ _ hany, ?_⟩
    have hfields := foldl_processItem_fields cr ps record.items
      { s0 with sales_count := s0.sales_count + 1,
                revenue := s0.revenue + record.total_amount } st.2.1
    rw [hfields.2.1]
    exact Nat.succ_pos _

/-- The invariant holds after folding any record list. -/
theorem foldl_processRecord_inv (cr : Item → Product → Option ℚ) (ps : List Product)
    (records : List PurchaseRecord) :
    ∀ st : List SellerStat × ℕ × ℕ,
      (st.2.1 ≠ 0 → ∃ s ∈ st.1, 0 < s.sales_count) →
      (records.foldl (processRecord cr ps) st).2.1 ≠ 0 →
        ∃ s ∈ (records.foldl (processRecord cr ps) st).1, 0 < s.sales_count := by
  induction records with
  | nil => intro st h; exact h
  | cons r rs ih => intro st h; exact ih _ (processRecord_inv cr ps st r h)

/-- A positive valid-item count after aggregation leaves a non-empty list of
sellers with `sales_count > 0`. -/
theorem aggregate_filter_ne_nil (cr : Item → Product → Option ℚ) (ps : List Product)
    (sellers : List Seller) (records : List PurchaseRecord)
    (h : 0 < (aggregate cr ps sellers records).2.1) :
    (aggregate cr ps sellers records).1.filter (fun s => 0 < s.sales_count) ≠ [] := by
  obtain ⟨s, hmem, hcount⟩ :=
    foldl_processRecord_inv cr ps records (initStats sellers, 0, 0)
      (by intro hc; exact absurd rfl hc) (Nat.pos_iff_ne_zero.mp h)
  intro hnil
  have hs : s ∈ (aggregate cr ps sellers records).1.filter (fun s => 0 < s.sales_count) :=
    List.mem_filter.mpr ⟨hmem, by simpa using hcount⟩
  rw [hnil] at hs
  exact absurd hs (List.not_mem_nil s)

/-! ### Claim C10 -/

/-- C10 confirmed: a nonzero valid-item count guarantees the
`sales_count > 0` filter keeps at least one seller, so the later error branch
for "no sellers with sales remain after filtering" can never fire:
`analyzeSalesData` never returns that error, on any input. -/
theorem c10_unreachable_branch :
    (∀ (cr : Item → Product → Option ℚ) (ps : List Product) (sellers : List Seller)
        (records : List PurchaseRecord),
      0 < (aggregate cr ps sellers records).2.1 →
      (aggregate cr ps sellers records).1.filter (fun s => 0 < s.sales_count) ≠ []) ∧
    ∀ (data : SalesData) (opts : AnalyzeOptions),
      analyzeSalesData data opts ≠ Except.error msgNoSellersWithSales := by
  constructor
  · exact aggregate_filter_ne_nil
  · intro data opts h
    unfold analyzeSalesData at h
    split at h
    · have := Except.error.inj h
      exact absurd this (by decide)
    · split at h
      · have := Except.error.inj h
        exact absurd this (by decide)
      · split at h
        · rename_i hvalid hempty
          have hne := aggregate_filter_ne_nil opts.calculateRevenue data.products
            data.sellers data.purchase_records (Nat.pos_of_ne_zero hvalid)
          exact hne (List.isEmpty_iff.mp hempty)
        · exact Except.noConfusion h

/-- C10 witness: the invariant half applied at a concrete aggregation with one
valid item. -/
theorem c10_witness :
    (aggregate defaultOptions.calculateRevenue exC3Data.products exC3Data.sellers
      exC3Data.purchase_records).1.filter (fun s => 0 < s.sales_count) ≠ [] :=
  c10_unreachable_branch.1 defaultOptions.calculateRevenue exC3Data.products
    exC3Data.sellers exC3Data.purchase_records (by with_unfolding_all decide)

/-! ### Claim C6 -/

/-- C6 confirmed: once the collection checks pass, `analyzeSalesData` throws
(some error) if and only if the aggregation processed zero valid line items —
where a line item counts as valid exactly when its record's `seller_id` is
known, its SKU is known, and the revenue strategy returned normally.  (The
only other candidate error branch is unreachable by the C10 invariant.) -/
theorem c6_fatal_iff_no_valid_items (data : SalesData) (opts : AnalyzeOptions)
    (h : data.purchase_records ≠ [] ∧ data.products ≠ [] ∧ data.sellers ≠ []) :
    (∃ msg, analyzeSalesData data opts = Except.error msg) ↔
      (aggregate opts.calculateRevenue data.products data.sellers
        data.purchase_records).2.1 = 0 := by
  have hcond : (data.purchase_records.isEmpty || data.products.isEmpty ||
      data.sellers.isEmpty) = false := by
    simp only [Bool.or_eq_false_iff, List.isEmpty_eq_false_iff_exists_mem]
    refine ⟨⟨?_, ?_⟩, ?_⟩ <;>
      first
        | exact (List.exists_mem_of_ne_nil _ h.1)
        | exact (List.exists_mem_of_ne_nil _ h.2.1)
        | exact (List.exists_mem_of_ne_nil _ h.2.2)
  constructor
  · rintro ⟨msg, hm⟩
    unfold analyzeSalesData at hm
    rw [hcond] at hm
    simp only [Bool.false_eq_true, if_false] at hm
    by_cases hz : (aggregate opts.calculateRevenue data.products data.sellers
        data.purchase_records).2.1 = 0
    · exact hz
    · exfalso
      have hne := aggregate_filter_ne_nil opts.calculateRevenue data.products
        data.sellers data.purchase_records (Nat.pos_of_ne_zero hz)
      rw [if_neg hz] at hm
      rw [if_neg (by simpa [List.isEmpty_iff] using hne)] at hm
      exact Except.noConfusion hm
  · intro hz
    refine ⟨msgNoValidPurchases, ?_⟩
    unfold analyzeSalesData
    rw [hcond]
    simp only [Bool.false_eq_true, if_false]
    rw [if_pos hz]

/-- C6 witness: the equivalence at a concrete passing input (both sides
false). -/
theorem c6_witness :
    (∃ msg, analyzeSalesData exC3Data defaultOptions = Except.error msg) ↔
      (aggregate defaultOptions.calculateRevenue exC3Data.products exC3Data.sellers
        exC3Data.purchase_records).2.1 = 0 :=
  c6_fatal_iff_no_valid_items exC3Data defaultOptions
    ⟨by decide, by decide, by decide⟩

/-! ### Ranking helpers -/

/-- Rounding to 2 decimals is monotone, so sorting on raw profits also sorts
the rounded profits of the report. -/
theorem round2_mono {x y : ℚ} (h : x ≤ y) : round2 x ≤ round2 y := by
  unfold round2
  have h1 : (⌊x * 100 + 1 / 2⌋ : ℤ) ≤ ⌊y * 100 + 1 / 2⌋ := Int.floor_mono (by linarith)
  have h2 : ((⌊x * 100 + 1 / 2⌋ : ℤ) : ℚ) ≤ ((⌊y * 100 + 1 / 2⌋ : ℤ) : ℚ) := by
    exact_mod_cast h1
  linarith

/-- The bonus pass does not touch profits. -/
theorem assignBonuses_map_profit (cb : ℕ → ℕ → SellerStat → Option ℚ) (total : ℕ)
    (l : List SellerStat) : ∀ i : ℕ,
    (assignBonuses cb total i l).map (fun s => s.profit) = l.map (fun s => s.profit) := by
  induction l with
  | nil => intro i; rfl
  | cons s rest ih =>
    intro i
    rcases hb : cb i total s with _ | b <;> simp [assignBonuses, hb, ih (i + 1)]

/-- The bonus pass does not touch seller ids. -/
theorem assignBonuses_map_id (cb : ℕ → ℕ → SellerStat → Option ℚ) (total : ℕ)
    (l : List SellerStat) : ∀ i : ℕ,
    (assignBonuses cb total i l).map (fun s => s.id) = l.map (fun s => s.id) := by
  induction l with
  | nil => intro i; rfl
  | cons s rest ih =>
    intro i
    rcases hb : cb i total s with _ | b <;> simp [assignBonuses, hb, ih (i + 1)]

/-- Every `top_products` list produced by the bonus pass is `topProductsOf`
of some products-sold list (the empty list in the caught-exception case). -/
theorem assignBonuses_top (cb : ℕ → ℕ → SellerStat → Option ℚ) (total : ℕ)
    (l : List SellerStat) : ∀ (i : ℕ) (x : SellerStat),
    x ∈ assignBonuses cb total i l → ∃ ps, x.top_products = topProductsOf ps := by
  induction l with
  | nil => intro i x hx; simp [assignBonuses] at hx
  | cons s rest ih =>
    intro i x hx
    rcases hb : cb i total s with _ | b
    · simp only [assignBonuses, hb] at hx
      rcases List.mem_cons.mp hx with rfl | hx
      · exact ⟨[], rfl⟩
      · exact ih (i + 1) x hx
    · simp only [assignBonuses, hb] at hx
      rcases List.mem_cons.mp hx with rfl | hx
      · exact ⟨s.products_sold, rfl⟩
      · exact ih (i + 1) x hx

/-- `topProductsOf` never returns more than 10 SKUs. -/
theorem topProductsOf_length_le (ps : List (String × ℚ)) :
    (topProductsOf ps).length ≤ 10 := by
  unfold topProductsOf
  rw [List.length_map, List.length_take]
  exact min_le_left _ _

/-- The quantity-descending sort underlying `topProductsOf` is sorted with
non-increasing quantities. -/
theorem topPairs_sorted (ps : List (String × ℚ)) :
    (List.insertionSort (fun a b : String × ℚ => b.2 ≤ a.2) ps).Pairwise
      (fun a b => b.2 ≤ a.2) := by
  haveI : IsTotal (String × ℚ) (fun a b => b.2 ≤ a.2) := ⟨fun a b => le_total b.2 a.2⟩
  haveI : IsTrans (String × ℚ) (fun a b => b.2 ≤ a.2) :=
    ⟨fun a b c hab hbc => le_trans hbc hab⟩
  exact List.sorted_insertionSort _ ps

/-! ### Claim C8 -/

/-- Bonus assignment preserves any pairwise relation that only looks at
profits (each output element keeps its input's profit). -/
theorem assignBonuses_mem_profit (cb : ℕ → ℕ → SellerStat → Option ℚ) (total : ℕ)
    (l : List SellerStat) : ∀ (i : ℕ) (x : SellerStat),
    x ∈ assignBonuses cb total i l → ∃ t ∈ l, x.profit = t.profit := by
  induction l with
  | nil => intro i x hx; simp [assignBonuses] at hx
  | cons s rest ih =>
    intro i x hx
    rcases hb : cb i total s with _ | b <;>
    · simp only [assignBonuses, hb] at hx
      rcases List.mem_cons.mp hx with rfl | hx
      · exact ⟨s, List.mem_cons_self s rest, rfl⟩
      · obtain ⟨t, ht, hpt⟩ := ih (i + 1) x hx
        exact ⟨t, List.mem_cons_of_mem s ht, hpt⟩

/-- Pairwise relations on profits survive the bonus pass. -/
theorem assignBonuses_pairwise (cb : ℕ → ℕ → SellerStat → Option ℚ) (total : ℕ)
    (R : ℚ → ℚ → Prop) (l : List SellerStat) : ∀ i : ℕ,
    l.Pairwise (fun a b => R a.profit b.profit) →
      (assignBonuses cb total i l).Pairwise (fun a b => R a.profit b.profit) := by
  induction l with
  | nil => intro i _; exact List.Pairwise.nil
  | cons s rest ih =>
    intro i h
    rw [List.pairwise_cons] at h
    obtain ⟨hhead, htail⟩ := h
    have htail2 := ih (i + 1) htail
    have hhead2 : ∀ y ∈ assignBonuses cb total (i + 1) rest, R s.profit y.profit := by
      intro y hy
      obtain ⟨t, ht, hpt⟩ := assignBonuses_mem_profit cb total rest (i + 1) y hy
      rw [hpt]
      exact hhead t ht
    rcases hb : cb i total s with _ | b <;>
    · simp only [assignBonuses, hb]
      exact List.Pairwise.cons hhead2 htail2

/-- C8 confirmed: any successfully produced report is sorted by profit
non-increasing, and its seller ids are exactly (a permutation of) the ids of
the aggregated sellers with `sales_count > 0` — sellers without sales are
filtered out, each surviving accumulator yields one entry. -/
theorem c8_sorted_one_entry_per_seller (data : SalesData) (opts : AnalyzeOptions)
    (report : List ReportEntry)
    (h : analyzeSalesData data opts = Except.ok report) :
    report.Pairwise (fun a b => b.profit ≤ a.profit) ∧
    (report.map (fun e => e.seller_id)).Perm
      (((aggregate opts.calculateRevenue data.products data.sellers
        data.purchase_records).1.filter (fun s => 0 < s.sales_count)).map
        (fun s => s.id)) := by
  unfold analyzeSalesData at h
  split at h
  · exact Except.noConfusion h
  · split at h
    · exact Except.noConfusion h
    · split at h
      · exact Except.noConfusion h
      · have hrep := (Except.ok.inj h).symm
        subst hrep
        haveI : IsTotal SellerStat (fun a b => b.profit ≤ a.profit) :=
          ⟨fun a b => le_total b.profit a.profit⟩
        haveI : IsTrans SellerStat (fun a b => b.profit ≤ a.profit) :=
          ⟨fun a b c hab hbc => le_trans hbc hab⟩
        constructor
        · have hs : (List.insertionSort (fun a b : SellerStat => b.profit ≤ a.profit)
              ((aggregate opts.calculateRevenue data.products data.sellers
                data.purchase_records).1.filter (fun s => 0 < s.sales_count))).Pairwise
              (fun a b => b.profit ≤ a.profit) :=
            List.sorted_insertionSort _ _
          have h2 := assignBonuses_pairwise opts.calculateBonus
            (List.insertionSort (fun a b : SellerStat => b.profit ≤ a.profit)
              ((aggregate opts.calculateRevenue data.products data.sellers
                data.purchase_records).1.filter (fun s => 0 < s.sales_count))).length
            (fun x y : ℚ => y ≤ x)
            (List.insertionSort (fun a b : SellerStat => b.profit ≤ a.profit)
              ((aggregate opts.calculateRevenue data.products data.sellers
                data.purchase_records).1.filter (fun s => 0 < s.sales_count)))
            0 hs
          exact List.pairwise_map.mpr (h2.imp fun hab => round2_mono hab)
        · rw [List.map_map]
          have hco : ((fun e : ReportEntry => e.seller_id) ∘ toReport) =
              (fun s : SellerStat => s.id) := rfl
          rw [hco, assignBonuses_map_id opts.calculateBonus _ _ 0]
          exact (List.perm_insertionSort _ _).map _

/-- The report entry produced by the single-seller scenario. -/
def exC3Entry : ReportEntry :=
  { seller_id := "S1", name := "Ann Lee", revenue := 40, profit := 20, sales_count := 1,
    top_products := ["SKU_1"], bonus := 15 / 100 }

/-- C8 witness: the theorem at the concrete single-seller run. -/
theorem c8_witness :
    ([exC3Entry] : List ReportEntry).Pairwise (fun a b => b.profit ≤ a.profit) ∧
    (([exC3Entry] : List ReportEntry).map (fun e => e.seller_id)).Perm
      (((aggregate defaultOptions.calculateRevenue exC3Data.products exC3Data.sellers
        exC3Data.purchase_records).1.filter (fun s => 0 < s.sales_count)).map
        (fun s => s.id)) :=
  c8_sorted_one_entry_per_seller exC3Data defaultOptions [exC3Entry]
    (by with_unfolding_all rfl)

/-! ### Claim C4 -/

/-- Numeric suffix of a SKU of the form `SKU_<n>`, as the spec's tie-break
compares it (`parseInt` of the part after `SKU_`). -/
def skuNumber (sku : String) : ℕ := ((sku.drop 4).toNat?).getD 0

/-- Modelled from the spec: the procedure claim C4 describes —
`products_sold` pairs sorted by quantity descending with ties broken by
ascending numeric SKU suffix, first 10 taken.  `src/src/main.js` implements
no SKU tie-break at all, so this differs from `topProductsOf`. -/
def specTopProducts (ps : List (String × ℚ)) : List (String × ℚ) :=
  (List.insertionSort
    (fun a b : String × ℚ => b.2 < a.2 ∨ (a.2 = b.2 ∧ skuNumber a.1 ≤ skuNumber b.1))
    ps).take 10

/-- C4 counterexample: with two SKUs tied on quantity, the seller's
`products_sold` is `[("SKU_100", 1), ("SKU_12", 1)]`; the claimed procedure
(numeric-suffix ascending tie-break) would list `SKU_12` first, but the code's
quantity-only stable sort keeps insertion order and outputs `SKU_100` first
(and outputs bare SKU strings, not SKU+quantity pairs). -/
theorem c4_counterexample :
    (analyzeSalesData exC4Data defaultOptions).map (fun r => r.map (fun e => e.top_products)) =
      Except.ok [["SKU_100", "SKU_12"]] ∧
    (aggregate defaultOptions.calculateRevenue exC4Data.products exC4Data.sellers
      exC4Data.purchase_records).1.map (fun s => s.products_sold) =
      [[("SKU_100", 1), ("SKU_12", 1)]] ∧
    (specTopProducts [("SKU_100", 1), ("SKU_12", 1)]).map Prod.fst =
      ["SKU_12", "SKU_100"] ∧
    (["SKU_100", "SKU_12"] : List String) ≠ ["SKU_12", "SKU_100"] := by
  refine ⟨?_, ?_, ?_, ?_⟩
  · with_unfolding_all rfl
  · with_unfolding_all rfl
  · with_unfolding_all rfl
  · with_unfolding_all decide

/-- C4 amended: every output seller's `top_products` is obtained by stably
sorting the `products_sold` pairs by quantity descending only (ties keep
insertion order — no SKU tie-break), taking the first 10 and projecting to the
bare SKU strings (`topProductsOf`; the caught-bonus-exception case yields the
empty list, which is `topProductsOf []`); hence its length is at most 10 and
the underlying sorted pairs have non-increasing quantities. -/
theorem c4_amended (data : SalesData) (opts : AnalyzeOptions) (report : List ReportEntry)
    (h : analyzeSalesData data opts = Except.ok report) :
    ∀ e ∈ report, e.top_products.length ≤ 10 ∧
      ∃ ps : List (String × ℚ), e.top_products = topProductsOf ps ∧
        (List.insertionSort (fun a b : String × ℚ => b.2 ≤ a.2) ps).Pairwise
          (fun a b => b.2 ≤ a.2) := by
  unfold analyzeSalesData at h
  split at h
  · exact Except.noConfusion h
  · split at h
    · exact Except.noConfusion h
    · split at h
      · exact Except.noConfusion h
      · have hrep := (Except.ok.inj h).symm
        subst hrep
        intro e he
        obtain ⟨x, hx, hxe⟩ := List.mem_map.mp he
        obtain ⟨ps, hps⟩ := assignBonuses_top opts.calculateBonus _ _ 0 x hx
        have het : e.top_products = topProductsOf ps := by
          rw [← hxe]
          exact hps
        refine ⟨?_, ps, het, topPairs_sorted ps⟩
        rw [het]
        exact topProductsOf_length_le ps

/-- The report entry produced by the tied-quantities input. -/
def exC4Entry : ReportEntry :=
  { seller_id := "S1", name := "Ann Lee", revenue := 4, profit := 2, sales_count := 1,
    top_products := ["SKU_100", "SKU_12"], bonus := 15 / 100 }

/-- C4 witness: the amended theorem at the tied-quantities run. -/
theorem c4_witness :
    exC4Entry.top_products.length ≤ 10 ∧
    ∃ ps : List (String × ℚ), exC4Entry.top_products = topProductsOf ps ∧
      (List.insertionSort (fun a b : String × ℚ => b.2 ≤ a.2) ps).Pairwise
        (fun a b => b.2 ≤ a.2) :=
  c4_amended exC4Data defaultOptions [exC4Entry] (by with_unfolding_all rfl)
    exC4Entry (List.mem_singleton.mpr rfl)

end SalesBonus
